import Mathlib

/-!
Verification of the wedding-planning recommendation engine
(`src/tools/wedding-domain`): the input normalizer (zod schema
`coupleContextInputSchema`), the snapshot builder, the venue strategist,
the budget architect, the design synthesizer and the pitch composer.

Modelling conventions:
* JavaScript numbers are modelled as `ℚ` (the engine only performs exact
  decimal arithmetic: sums, differences, products, divisions and
  round-to-one-decimal); `Math.round` is `jsRound` (half towards +∞,
  which is JavaScript's rounding rule).
* The ISO `YYYY-MM-DD` wedding-date string is modelled in already-split
  form as a `WDate` record (year/month/day as printed in the string);
  `new Date(...).getUTCMonth()` is `month - 1`.
* `Date` values produced by `new Date()` (the current clock) are also
  `WDate`s; the defaulted parameter `now = new Date()` of
  `toMonthDifference` is made an explicit argument that is threaded
  through every component, so clock dependence is visible in the types.
* `Array.prototype.sort` (stable since ES2019) is modelled by the stable
  insertion sort `sortByDesc`; every comparator in the source is of the
  shape `(l, r) => key(r) - key(l)`, i.e. a descending sort on a numeric
  key with ties kept in input order.
* String unions such as `"low" | "medium" | "high"` are modelled as
  inductive types; strings that flow into output records stay `String`.
-/

set_option allowUnsafeReducibility true
attribute [semireducible] Rat.add Rat.sub Rat.mul Rat.inv Rat.ofScientific

/-- Season union from `schemas.ts` (`weddingSeasonSchema`). -/
inductive WeddingSeason where
  | spring
  | summer
  | fall
  | winter
deriving DecidableEq, Repr

/-- Priority union from `schemas.ts` (`weddingPrioritySchema`). -/
inductive WeddingPriority where
  | food
  | party
  | elegance
  | intimacy
  | photos
deriving DecidableEq, Repr

/-- A calendar date as written in the `YYYY-MM-DD` input string
(month and day as printed, i.e. 1-based month). -/
structure WDate where
  year : Nat
  month : Nat
  day : Nat
deriving DecidableEq, Repr

/-- The couple-context input record (fields of
`coupleContextInputSchema`), with the date already split into its
numeric components. -/
structure CoupleContextInput where
  location : String
  weddingDate : Option WDate
  weddingSeason : Option WeddingSeason
  guestCount : Nat
  budgetMin : ℚ
  budgetMax : ℚ
  priorities : List WeddingPriority
  vibeWords : List String
  nonNegotiable : String
deriving DecidableEq, Repr

/-- `Math.round`: round half towards positive infinity. -/
def jsRound (q : ℚ) : ℤ := ⌊q + 1 / 2⌋

/-- `Math.round(x * 10) / 10`: round to one decimal place. -/
def roundTo1 (x : ℚ) : ℚ := (jsRound (x * 10) : ℚ) / 10

/-- `clamp` from the engine: `Math.min(max, Math.max(min, value))`. -/
def clamp (value lo hi : ℚ) : ℚ := min hi (max lo value)

/-- `getUTCMonth()` of the parsed date: JavaScript months are 0-based. -/
def getUTCMonth (d : WDate) : Nat := d.month - 1

/-- Substring test on character lists (used to model
`String.prototype.includes`). -/
def containsSub (needle : List Char) : List Char → Bool
  | [] => needle.isEmpty
  | c :: rest => needle.isPrefixOf (c :: rest) || containsSub needle rest

/-- `s.includes(t)` for JavaScript strings. -/
def strIncludes (s t : String) : Bool := containsSub t.data s.data

/-- ASCII lowercasing of one character (the engine's inputs and tables
are ASCII). -/
def charToLower (c : Char) : Char :=
  if 65 ≤ c.toNat ∧ c.toNat ≤ 90 then Char.ofNat (c.toNat + 32) else c

/-- `String.prototype.toLowerCase` (ASCII range). -/
def jsToLower (s : String) : String := ⟨s.data.map charToLower⟩

/-- `Array.prototype.join`. -/
def joinSep (sep : String) : List String → String
  | [] => ""
  | x :: xs => xs.foldl (fun acc piece => acc ++ sep ++ piece) x

/-- `String.prototype.trim`: strip leading and trailing whitespace. -/
def jsTrim (s : String) : String :=
  ⟨((s.data.dropWhile Char.isWhitespace).reverse.dropWhile
    Char.isWhitespace).reverse⟩

/-- Leap-year rule used by `new Date` for day-of-month validation. -/
def isLeapYear (y : Nat) : Bool := y % 4 == 0 && (y % 100 != 0 || y % 400 == 0)

/-- Number of days in a month (1-based month), for date validation. -/
def daysInMonth (y m : Nat) : Nat :=
  if m = 2 then (if isLeapYear y then 29 else 28)
  else if m = 4 ∨ m = 6 ∨ m = 9 ∨ m = 11 then 30
  else 31

/-- `new Date(date + "T00:00:00Z")` produces a valid time exactly when
the components form a real calendar date. -/
def isValidCalendarDate (d : WDate) : Bool :=
  1 ≤ d.month && d.month ≤ 12 && 1 ≤ d.day && d.day ≤ daysInMonth d.year d.month

/-- The shape constraint of the schema regex `^\d{4}-\d{2}-\d{2}$` on the
already-split date components. -/
def matchesDateShape (d : WDate) : Bool :=
  d.year ≤ 9999 && d.month ≤ 99 && d.day ≤ 99

/-- One zod issue: a field path plus a message. -/
structure ValidationIssue where
  path : List String
  message : String
deriving DecidableEq, Repr

/-- Base (per-field) checks of `coupleContextInputSchema`, in field
declaration order.  Messages for the built-in checks are abbreviated;
only the paths matter to the claims. -/
def baseIssues (c : CoupleContextInput) : List ValidationIssue :=
  (if c.location.length < 2 then
    [⟨["location"], "String must contain at least 2 character(s)"⟩] else []) ++
  (match c.weddingDate with
    | some d => if matchesDateShape d then [] else [⟨["weddingDate"], "Invalid"⟩]
    | none => []) ++
  (if c.guestCount < 10 ∨ 400 < c.guestCount then
    [⟨["guestCount"], "guestCount out of range"⟩] else []) ++
  (if c.budgetMin < 1000 then
    [⟨["budgetMin"], "Number must be greater than or equal to 1000"⟩] else []) ++
  (if c.budgetMax < 1000 then
    [⟨["budgetMax"], "Number must be greater than or equal to 1000"⟩] else []) ++
  (if c.priorities.length ≠ 3 then
    [⟨["priorities"], "Array must contain exactly 3 element(s)"⟩] else []) ++
  (if c.vibeWords.length < 1 ∨ 5 < c.vibeWords.length ∨
      ¬ c.vibeWords.all (fun w => 2 ≤ w.length) then
    [⟨["vibeWords"], "vibeWords out of range"⟩] else []) ++
  (if c.nonNegotiable.length < 3 then
    [⟨["nonNegotiable"], "String must contain at least 3 character(s)"⟩] else [])

/-- The four `superRefine` checks of `coupleContextInputSchema`, in
source order, with the source's messages and paths. -/
def refineIssues (c : CoupleContextInput) : List ValidationIssue :=
  (if c.weddingDate = none ∧ c.weddingSeason = none then
    [⟨["weddingDate"], "Provide either weddingDate or weddingSeason."⟩] else []) ++
  (if c.budgetMax < c.budgetMin then
    [⟨["budgetMax"], "budgetMax must be greater than or equal to budgetMin."⟩] else []) ++
  (if ¬ c.priorities.Nodup then
    [⟨["priorities"], "priorities must contain three distinct values."⟩] else []) ++
  (match c.weddingDate with
    | some d =>
      if isValidCalendarDate d then []
      else [⟨["weddingDate"], "weddingDate must be a valid calendar date."⟩]
    | none => [])

/-- `coupleContextInputSchema.parse`: zod runs the `superRefine` effects
only when the base object parse succeeds, so the resulting issue list is
the base issues when nonempty, and the refinement issues otherwise. -/
def zodIssues (c : CoupleContextInput) : List ValidationIssue :=
  if baseIssues c = [] then refineIssues c else baseIssues c

/-- A couple context is valid when `coupleContextInputSchema.parse`
accepts it (no issues). -/
def ValidContext (c : CoupleContextInput) : Prop := zodIssues c = []

instance (c : CoupleContextInput) : Decidable (ValidContext c) := by
  unfold ValidContext
  infer_instance

/-- `normalizeContext` re-runs `coupleContextInputSchema.parse`, which
throws on invalid input (captured by `ValidContext` hypotheses in the
theorems) and returns the same field values on valid input. -/
def normalizeContext (input : CoupleContextInput) : CoupleContextInput := input

/-- The `"low" | "medium" | "high"` union used for complexity levels and
risk severities. -/
inductive SeverityLevel where
  | low
  | medium
  | high
deriving DecidableEq, Repr

/-- Stable insertion of `x` into a list sorted descending on `key`:
`x` goes after every earlier element with a key at least as large.
This is the placement a stable descending sort gives. -/
def insertByDesc {α : Type} (key : α → ℚ) (x : α) : List α → List α
  | [] => [x]
  | y :: ys => if key y > key x then y :: insertByDesc key x ys else x :: y :: ys

/-- `Array.prototype.sort` with comparator `(l, r) => key(r) - key(l)`:
stable descending sort on a numeric key (stable since ES2019). -/
def sortByDesc {α : Type} (key : α → ℚ) : List α → List α
  | [] => []
  | x :: xs => insertByDesc key x (sortByDesc key xs)

/-- `parseWeddingDate`: the string parse yields a valid time exactly when
the components form a real calendar date (otherwise `new Date` is NaN and
the function returns null). -/
def parseWeddingDate (date : Option WDate) : Option WDate :=
  match date with
  | none => none
  | some d => if isValidCalendarDate d then some d else none

/-- `toMonthDifference(targetDate, now)`: whole-month difference, rounded
down by one when the target day-of-month has not yet arrived.  The source
defaults `now` to `new Date()` (the global clock); the clock is an
explicit argument here. -/
def toMonthDifference (targetDate now : WDate) : ℤ :=
  let yearDelta : ℤ := (targetDate.year : ℤ) - (now.year : ℤ)
  let monthDelta : ℤ := (getUTCMonth targetDate : ℤ) - (getUTCMonth now : ℤ)
  let rawMonths := yearDelta * 12 + monthDelta
  if targetDate.day < now.day then rawMonths - 1 else rawMonths

/-- `inferSeasonFromDate`, on the 0-based `getUTCMonth` value. -/
def inferSeasonFromDate (date : WDate) : WeddingSeason :=
  let month := getUTCMonth date
  if 2 ≤ month ∧ month ≤ 4 then .spring
  else if 5 ≤ month ∧ month ≤ 7 then .summer
  else if 8 ≤ month ∧ month ≤ 10 then .fall
  else .winter

/-- Digit grouping of `Intl.NumberFormat("en-US")`: commas every three
digits, working over the reversed digit list. -/
def groupChars : List Char → List Char
  | a :: b :: c :: d :: rest => a :: b :: c :: ',' :: groupChars (d :: rest)
  | l => l

/-- `formatCurrency`: `Intl.NumberFormat` en-US USD with no fraction
digits (half-away-from-zero rounding; all amounts here are positive). -/
def formatCurrency (amount : ℚ) : String :=
  "$" ++ ⟨(groupChars (toString (jsRound amount).toNat).data.reverse).reverse⟩

/-- en-US short month names, indexed by the 0-based month. -/
def monthAbbrev (m0 : Nat) : String :=
  match m0 with
  | 0 => "Jan" | 1 => "Feb" | 2 => "Mar" | 3 => "Apr"
  | 4 => "May" | 5 => "Jun" | 6 => "Jul" | 7 => "Aug"
  | 8 => "Sep" | 9 => "Oct" | 10 => "Nov" | _ => "Dec"

/-- `formatMonthYear`: `Intl.DateTimeFormat` en-US short month + year. -/
def formatMonthYear (date : WDate) : String :=
  monthAbbrev (getUTCMonth date) ++ " " ++ toString date.year

/-- `subtractMonths`: first-of-month, with JavaScript `setUTCMonth`
normalization of the month index. -/
def subtractMonths (date : WDate) (months : Nat) : WDate :=
  let total : ℤ := (date.year : ℤ) * 12 + (getUTCMonth date : ℤ) - (months : ℤ)
  { year := (Int.ediv total 12).toNat, month := (Int.emod total 12).toNat + 1, day := 1 }

/-- `uniqueList`: `Array.from(new Set(values))` keeps the first
occurrence of each value, in order. -/
def uniqueList : List String → List String
  | [] => []
  | x :: xs => x :: uniqueList (xs.filter (fun y => y ≠ x))
termination_by l => l.length
decreasing_by
  simp only [List.length_cons]
  exact Nat.lt_succ_of_le (List.length_filter_le _ _)

/-- `normalizeVibes`: trim, lowercase, drop empties. -/
def normalizeVibes (vibeWords : List String) : List String :=
  (vibeWords.map (fun word => jsToLower (jsTrim word))).filter
    (fun word => word.length > 0)

/-- `getBudgetTier`. -/
def getBudgetTier (perGuestMidpoint : ℚ) : String :=
  if perGuestMidpoint < 250 then "Essential"
  else if perGuestMidpoint < 600 then "Smart Luxury"
  else if perGuestMidpoint < 1000 then "Elevated"
  else "Prestige"

/-- `getGuestLoadScore`. -/
def getGuestLoadScore (guestCount : Nat) : ℚ :=
  if guestCount ≤ 50 then 10
  else if guestCount ≤ 100 then 22
  else if guestCount ≤ 150 then 32
  else 42

/-- `getPriorityPressure`: 8 when at least two of food/party/photos are
chosen, else 4. -/
def getPriorityPressure (priorities : List WeddingPriority) : ℚ :=
  let focus : List WeddingPriority := [.food, .party, .photos]
  let overlap := (priorities.filter (fun p => focus.contains p)).length
  if overlap ≥ 2 then 8 else 4

/-- `getNonNegotiablePressure`: the regex patterns are plain words, so
the test is a substring match on the lowercased text. -/
def getNonNegotiablePressure (nonNegotiable : String) : ℚ :=
  let normalized := jsToLower nonNegotiable
  let highPressurePatterns : List String :=
    ["destination", "outdoor", "specific vendor", "custom tradition",
     "religious tradition"]
  if highPressurePatterns.any (fun pattern => strIncludes normalized pattern)
  then 10 else 5

/-- `getComplexityLevel`. -/
def getComplexityLevel (score : ℚ) : SeverityLevel :=
  if score ≤ 34 then .low
  else if score ≤ 64 then .medium
  else .high

/-- `getVenueSpendInfluencePct`. -/
def getVenueSpendInfluencePct (guestCount : Nat) : ℚ :=
  if guestCount ≤ 60 then 40
  else if guestCount ≤ 120 then 45
  else if guestCount ≤ 180 then 52
  else 60

/-- `getTimelinePressure`: 7 with no date, else 12 when at most 10
months remain (months measured against the clock `now`). -/
def getTimelinePressure (date : Option WDate) (now : WDate) : ℚ :=
  match date with
  | none => 7
  | some d => if toMonthDifference d now ≤ 10 then 12 else 7

/-- `getSeasonPressure`. -/
def getSeasonPressure (season : WeddingSeason) : ℚ :=
  if season = .summer ∨ season = .fall then 10 else 6

/-- `getNormalizedSeason`: an explicitly supplied season wins; otherwise
the season is inferred from the parsed date, with spring as the fallback
for a missing or unparseable date. -/
def getNormalizedSeason (context : CoupleContextInput) : WeddingSeason :=
  match context.weddingSeason with
  | some season => season
  | none =>
    match parseWeddingDate context.weddingDate with
    | none => .spring
    | some parsedDate => inferSeasonFromDate parsedDate

/-- The seven non-buffer spend categories. -/
inductive NonBufferCategory where
  | Venue
  | Catering
  | Photography
  | Attire
  | Decor
  | Entertainment
  | Planner
deriving DecidableEq, Repr

/-- `NON_BUFFER_CATEGORIES`, in declaration order. -/
def NON_BUFFER_CATEGORIES : List NonBufferCategory :=
  [.Venue, .Catering, .Photography, .Attire, .Decor, .Entertainment, .Planner]

/-- The category names as they appear in allocation records. -/
def categoryName : NonBufferCategory → String
  | .Venue => "Venue"
  | .Catering => "Catering"
  | .Photography => "Photography"
  | .Attire => "Attire"
  | .Decor => "Decor"
  | .Entertainment => "Entertainment"
  | .Planner => "Planner"

/-- `BASE_NON_BUFFER_WEIGHTS`. -/
def BASE_NON_BUFFER_WEIGHTS : NonBufferCategory → ℚ
  | .Venue => 23
  | .Catering => 25
  | .Photography => 10
  | .Attire => 8
  | .Decor => 10
  | .Entertainment => 8
  | .Planner => 6

/-- `PRIORITY_MODIFIERS`; absent entries of the partial records are 0
(the source reads them with `?? 0`). -/
def PRIORITY_MODIFIERS : WeddingPriority → NonBufferCategory → ℚ
  | .food, .Catering => 4
  | .food, .Decor => -1
  | .food, .Entertainment => -1
  | .food, .Attire => -2
  | .party, .Entertainment => 4
  | .party, .Venue => 1
  | .party, .Decor => -2
  | .party, .Attire => -1
  | .party, .Planner => -2
  | .elegance, .Decor => 4
  | .elegance, .Attire => 2
  | .elegance, .Entertainment => -2
  | .elegance, .Planner => -2
  | .elegance, .Venue => -2
  | .intimacy, .Venue => 2
  | .intimacy, .Decor => 1
  | .intimacy, .Entertainment => -1
  | .intimacy, .Catering => -1
  | .intimacy, .Planner => -1
  | .photos, .Photography => 5
  | .photos, .Decor => 1
  | .photos, .Entertainment => -2
  | .photos, .Venue => -2
  | .photos, .Attire => -2
  | _, _ => 0

/-- `STRATEGIC_PRIORITY_LABELS`. -/
def STRATEGIC_PRIORITY_LABELS : WeddingPriority → String
  | .food => "Food and beverage experience"
  | .party => "Guest energy and celebration flow"
  | .elegance => "Visual elegance and styling"
  | .intimacy => "Intimate guest experience"
  | .photos => "Photography and storytelling"

/-- Sum of a category-indexed quantity over the seven categories (the
`reduce` over `NON_BUFFER_CATEGORIES` in the source). -/
def sumOverCats (f : NonBufferCategory → ℚ) : ℚ :=
  (NON_BUFFER_CATEGORIES.map f).sum

/-- The `forEach` of `normalizePercents` that scales every weight to the
target total and rounds it to one decimal. -/
def scaledWeights (weights : NonBufferCategory → ℚ) (targetTotal : ℚ) :
    NonBufferCategory → ℚ :=
  fun key => roundTo1 (weights key / sumOverCats weights * targetTotal)

/-- The `reduce` in `normalizePercents` picking the category with the
largest scaled share (earliest wins on ties).  Starting the fold with
`Venue` over the full list equals the source's no-seed `reduce` (its
first step compares `Venue` with itself and keeps it). -/
def largestCategory (scaled : NonBufferCategory → ℚ) : NonBufferCategory :=
  NON_BUFFER_CATEGORIES.foldl
    (fun best key => if scaled key > scaled best then key else best) .Venue

/-- `normalizePercents`: scale to the target total, round each share to
one decimal, and add the rounding residual to the largest share. -/
def normalizePercents (weights : NonBufferCategory → ℚ) (targetTotal : ℚ) :
    NonBufferCategory → ℚ :=
  let scaled := scaledWeights weights targetTotal
  let current := sumOverCats scaled
  let diff := roundTo1 (targetTotal - current)
  if diff ≠ 0 then
    Function.update scaled (largestCategory scaled)
      (roundTo1 (scaled (largestCategory scaled) + diff))
  else scaled

/-- `getSecondaryTradeoff` (the `default` arm of the source's `switch` is
unreachable for the closed priority union). -/
def getSecondaryTradeoff (priority : WeddingPriority) : String :=
  match priority with
  | .food => "Elevating catering by 5% usually requires pulling from entertainment pacing or reducing premium bar duration."
  | .party => "Adding premium entertainment and production often reduces flexibility in decor scale unless total budget increases."
  | .elegance => "A high-design decor concept typically compresses funds available for live entertainment upgrades."
  | .intimacy => "Investing in guest comfort upgrades can reduce headroom for large-format production elements."
  | .photos => "Moving photography from mid-tier to premium often requires trimming venue embellishments and custom signage."

/-- `getRiskSeverityWeight`. -/
def getRiskSeverityWeight (severity : SeverityLevel) : ℚ :=
  match severity with
  | .high => 3
  | .medium => 2
  | .low => 1

/-- JavaScript `Number#toString` restricted to the integers and
one-decimal values this engine renders. -/
def jsNumToString (q : ℚ) : String :=
  if q.den = 1 then toString q.num
  else toString (q.num / (q.den : ℤ)) ++ "." ++
    toString (((q.num * 10 / (q.den : ℤ)) % 10).natAbs)

/-- The season strings of `weddingSeasonSchema`. -/
def seasonName : WeddingSeason → String
  | .spring => "spring"
  | .summer => "summer"
  | .fall => "fall"
  | .winter => "winter"

/-- `getDateWindowLabel`. -/
def getDateWindowLabel (context : CoupleContextInput)
    (startMonthsOut endMonthsOut : Nat) : String :=
  match parseWeddingDate context.weddingDate with
  | some weddingDate =>
    let startDate := subtractMonths weddingDate startMonthsOut
    let endDate := subtractMonths weddingDate endMonthsOut
    formatMonthYear startDate ++ " - " ++ formatMonthYear endDate
  | none =>
    let season := match context.weddingSeason with
      | some s => s
      | none => .spring
    if endMonthsOut = 0 then
      toString startMonthsOut ++ " months out to wedding (" ++ seasonName season ++ ")"
    else
      toString startMonthsOut ++ "-" ++ toString endMonthsOut ++
        " months out (" ++ seasonName season ++ ")"


/-- A venue archetype of the fixed catalog. -/
structure VenueProfile where
  venueType : String
  vibes : List String
  priorities : List WeddingPriority
  budgetImpactTier : String
  budgetShareRangePct : Nat × Nat
  capacityRange : Nat × Nat
  reasons : List String
deriving DecidableEq, Repr

/-- `VENUE_PROFILES`, in declaration order. -/
def VENUE_PROFILES : List VenueProfile :=
  [ { venueType := "Estate"
    , vibes := ["romantic", "elegance", "classic", "rustic"]
    , priorities := [.elegance, .photos, .intimacy]
    , budgetImpactTier := "$$$"
    , budgetShareRangePct := (45, 58)
    , capacityRange := (70, 220)
    , reasons :=
      [ "Built-in architecture reduces decor load while maintaining visual impact."
      , "Excellent natural backdrops for portraits and ceremony moments." ] }
  , { venueType := "Boutique hotel"
    , vibes := ["modern", "elegance", "romantic", "minimalist"]
    , priorities := [.food, .party, .elegance]
    , budgetImpactTier := "$$$"
    , budgetShareRangePct := (42, 55)
    , capacityRange := (60, 180)
    , reasons :=
      [ "Integrated catering and logistics simplify coordination."
      , "Consistent service operations help preserve guest experience quality." ] }
  , { venueType := "Industrial loft"
    , vibes := ["modern", "minimalist", "dramatic"]
    , priorities := [.party, .photos, .elegance]
    , budgetImpactTier := "$$"
    , budgetShareRangePct := (38, 48)
    , capacityRange := (80, 260)
    , reasons :=
      [ "Open layout supports flexible dance floor and guest flow design."
      , "Neutral shell allows strong creative direction without visual clutter." ] }
  , { venueType := "Garden venue"
    , vibes := ["romantic", "rustic", "intimacy", "minimalist"]
    , priorities := [.intimacy, .photos, .food]
    , budgetImpactTier := "$$"
    , budgetShareRangePct := (40, 52)
    , capacityRange := (40, 160)
    , reasons :=
      [ "Outdoor atmosphere supports an intimate and naturally immersive mood."
      , "Natural light improves daytime photography quality." ] }
  , { venueType := "Historic villa"
    , vibes := ["romantic", "dramatic", "elegance", "classic"]
    , priorities := [.elegance, .photos, .food]
    , budgetImpactTier := "$$$"
    , budgetShareRangePct := (44, 57)
    , capacityRange := (50, 180)
    , reasons :=
      [ "Character-rich interiors elevate storytelling and guest perception."
      , "Distinct ceremony and reception zones support cleaner timeline flow." ] }
  , { venueType := "Private club"
    , vibes := ["classic", "modern", "elegance", "intimacy"]
    , priorities := [.food, .intimacy, .party]
    , budgetImpactTier := "$$"
    , budgetShareRangePct := (39, 50)
    , capacityRange := (40, 140)
    , reasons :=
      [ "Controlled guest count creates a high-touch hospitality experience."
      , "Predictable operations reduce execution risk on event day." ] } ]

/-- The vibe tags of a profile matched by the couple's normalized vibe
words (case-insensitive substring match in either direction). -/
def matchedVibes (profile : VenueProfile) (normalizedVibes : List String) :
    List String :=
  profile.vibes.filter (fun vibe =>
    normalizedVibes.any (fun word => strIncludes word vibe || strIncludes vibe word))

/-- The capacity adjustment of `scoreVenueFit`: -4 below the range
minimum, -6 above the range maximum, +8 within range. -/
def capacityAdjustment (profile : VenueProfile) (guestCount : Nat) : ℚ :=
  if guestCount < profile.capacityRange.1 then -4
  else if guestCount > profile.capacityRange.2 then -6
  else 8

/-- `scoreVenueFit`. -/
def scoreVenueFit (profile : VenueProfile) (context : CoupleContextInput)
    (normalizedVibes : List String) : ℚ :=
  let vibeHits := (matchedVibes profile normalizedVibes).length
  let priorityHits :=
    (profile.priorities.filter (fun priority =>
      context.priorities.contains priority)).length
  clamp (52 + (vibeHits : ℚ) * 9 + (priorityHits : ℚ) * 10 +
    capacityAdjustment profile context.guestCount) 55 98

/-- An aesthetic profile of `VIBE_LIBRARY`. -/
structure VibeProfile where
  colorPalette : List String
  textures : List String
  lighting : String
  floral : String
  dressCode : String
deriving DecidableEq, Repr

/-- `VIBE_LIBRARY`, keyed by the exact lowercase vibe token. -/
def vibeLibraryLookup (word : String) : Option VibeProfile :=
  if word = "modern" then some
    { colorPalette := ["warm white", "graphite", "champagne gold"]
    , textures := ["polished stone", "brushed metal", "smooth linen"]
    , lighting := "architectural pin-spot lighting with soft perimeter wash"
    , floral := "sculptural blooms with minimal greenery"
    , dressCode := "Modern cocktail attire" }
  else if word = "rustic" then some
    { colorPalette := ["sage", "terracotta", "soft ivory"]
    , textures := ["raw wood", "matte ceramics", "natural linen"]
    , lighting := "warm festoon lighting and layered candlelight"
    , floral := "garden florals with textural greenery"
    , dressCode := "Formal garden attire" }
  else if word = "romantic" then some
    { colorPalette := ["blush", "ivory", "dusty rose"]
    , textures := ["silk", "velvet ribbon", "handmade paper"]
    , lighting := "candle-forward glow with soft uplighting"
    , floral := "soft ivory florals with trailing accents"
    , dressCode := "Romantic formal attire" }
  else if word = "minimalist" then some
    { colorPalette := ["bone", "taupe", "charcoal"]
    , textures := ["smooth plaster", "fine cotton", "matte ceramics"]
    , lighting := "clean directional lighting with restrained contrast"
    , floral := "single-varietal florals with structured greenery"
    , dressCode := "Minimal formal attire" }
  else if word = "dramatic" then some
    { colorPalette := ["black", "oxblood", "antique gold"]
    , textures := ["velvet", "smoked glass", "aged brass"]
    , lighting := "high-contrast pools of light with dark surround"
    , floral := "moody florals with deep tonal foliage"
    , dressCode := "Black-tie optional" }
  else none

/-- The `WeddingSnapshot` result record. -/
structure WeddingSnapshot where
  budgetTierLabel : String
  complexityScore : ℚ
  complexityLevel : SeverityLevel
  strategicPriorities : List String
  recommendedStartingPillar : String
  plannerInsight : String
  normalizedContext : CoupleContextInput
deriving DecidableEq, Repr

/-- `buildWeddingSnapshot` (with the clock made explicit). -/
def buildWeddingSnapshot (input : CoupleContextInput) (now : WDate) :
    WeddingSnapshot :=
  let context := normalizeContext input
  let midpointBudget := (context.budgetMin + context.budgetMax) / 2
  let perGuestMidpoint := midpointBudget / (context.guestCount : ℚ)
  let budgetTier := getBudgetTier perGuestMidpoint
  let season := getNormalizedSeason context
  let weddingDate := parseWeddingDate context.weddingDate
  let complexityScore := clamp
    (getGuestLoadScore context.guestCount +
      getTimelinePressure weddingDate now +
      getSeasonPressure season +
      getPriorityPressure context.priorities +
      getNonNegotiablePressure context.nonNegotiable) 0 100
  let complexityLevel := getComplexityLevel complexityScore
  let strategicPriorities :=
    (context.priorities.take 3).map STRATEGIC_PRIORITY_LABELS
  let recommendedStartingPillar :=
    if context.guestCount ≤ 60 ∧ perGuestMidpoint ≥ 700 ∧
        (context.priorities.contains .elegance ∨
          context.priorities.contains .intimacy)
    then "theme-first" else "venue-first"
  let influencePct := getVenueSpendInfluencePct context.guestCount
  let budgetTierLabel := budgetTier ++ " $" ++
    toString (jsRound (midpointBudget / 1000)) ++ "k - " ++
    toString context.guestCount ++ " guests"
  let plannerInsight :=
    "Given your guest count (" ++ toString context.guestCount ++
    ") and budget range " ++ formatCurrency context.budgetMin ++ "-" ++
    formatCurrency context.budgetMax ++
    ", venue selection will likely drive about " ++ jsNumToString influencePct ++
    "% of total spend and heavily shape theme decisions."
  { budgetTierLabel := budgetTierLabel
  , complexityScore := complexityScore
  , complexityLevel := complexityLevel
  , strategicPriorities := strategicPriorities
  , recommendedStartingPillar := recommendedStartingPillar
  , plannerInsight := plannerInsight
  , normalizedContext := context }

/-- One ranked venue recommendation. -/
structure VenueRecommendation where
  venueType : String
  fitScore : ℚ
  whyItMatches : List String
  budgetImpactTier : String
  budgetShareRangePct : Nat × Nat
deriving DecidableEq, Repr

/-- The venue timeline policy record. -/
structure VenueTimeline where
  bookingWindowMonthsBefore : Nat × Nat
  depositExpectationPct : Nat × Nat
  negotiationTips : List String
  urgency : String
deriving DecidableEq, Repr

/-- The `VenueStrategyBrief` result record. -/
structure VenueStrategyBrief where
  recommendations : List VenueRecommendation
  decisionChecklist : List String
  venueTimeline : VenueTimeline
  keyInsight : String
deriving DecidableEq, Repr

/-- The scored (unsorted) recommendation record the venue strategist
builds for one catalog profile. -/
def scoreProfile (context : CoupleContextInput) (normalizedVibes : List String)
    (profile : VenueProfile) : VenueRecommendation :=
  let fitScore := scoreVenueFit profile context normalizedVibes
  let vibeHits := matchedVibes profile normalizedVibes
  let whyItMatches := (uniqueList (profile.reasons ++
    [ if vibeHits.length > 0 then
        "Matches your vibe direction: " ++
          joinSep " and " (vibeHits.take 2) ++ "."
      else "Provides a flexible canvas for your selected aesthetic direction."
    , "Supports your " ++ toString context.guestCount ++
        "-guest layout with practical flow for ceremony and reception transitions." ])).take 3
  { venueType := profile.venueType
  , fitScore := fitScore
  , whyItMatches := whyItMatches
  , budgetImpactTier := profile.budgetImpactTier
  , budgetShareRangePct := profile.budgetShareRangePct }

/-- The full scored catalog (before sorting), in declaration order. -/
def venueScored (context : CoupleContextInput) : List VenueRecommendation :=
  VENUE_PROFILES.map (scoreProfile context (normalizeVibes context.vibeWords))

/-- `buildVenueStrategyBrief`.  The source's optional pre-computed
snapshot argument is omitted: every caller passes the snapshot built
from the same context, which is what is recomputed here. -/
def buildVenueStrategyBrief (input : CoupleContextInput) (now : WDate) :
    VenueStrategyBrief :=
  let snapshot := buildWeddingSnapshot input now
  let context := snapshot.normalizedContext
  let ranked :=
    (sortByDesc (fun r => r.fitScore) (venueScored context)).take 3
  let bookingWindowMonthsBefore : Nat × Nat :=
    if snapshot.complexityLevel = .high then (12, 14)
    else if snapshot.complexityLevel = .medium then (10, 12)
    else (8, 10)
  let weddingDate := parseWeddingDate context.weddingDate
  let monthsToWedding : Option ℤ :=
    match weddingDate with
    | some d => some (toMonthDifference d now)
    | none => none
  let urgency :=
    match monthsToWedding with
    | some m => if m < (bookingWindowMonthsBefore.1 : ℤ) then "accelerated" else "normal"
    | none => "normal"
  let influencePct := getVenueSpendInfluencePct context.guestCount
  let rangeMin := clamp (influencePct - 5) 40 55
  let rangeMax := clamp (influencePct + 5) 45 60
  { recommendations := ranked
  , decisionChecklist :=
      [ "Capacity vs comfort", "Catering restrictions", "Weather contingency"
      , "Vendor flexibility", "Hidden costs" ]
  , venueTimeline :=
    { bookingWindowMonthsBefore := bookingWindowMonthsBefore
    , depositExpectationPct := (20, 40)
    , negotiationTips :=
      [ "Ask for weekday or shoulder-season leverage before committing to premium dates."
      , "Negotiate package inclusions (furniture, lighting, staffing) before rate reductions."
      , "Confirm service charges and overtime triggers in writing before deposit transfer." ]
    , urgency := urgency }
  , keyInsight :=
      "Venue selection locks in date, vibe, layout, and lighting, and will likely control about " ++
      jsNumToString rangeMin ++ "-" ++ jsNumToString rangeMax ++ "% " ++
      "of your total budget. It is the structural backbone of this plan." }

/-- One budget allocation entry. -/
structure Allocation where
  category : String
  percent : ℚ
  amountUsd : ℤ
deriving DecidableEq, Repr

/-- The `BudgetArchitecture` result record. -/
structure BudgetArchitecture where
  allocations : List Allocation
  tradeoffInsights : List String
  bufferPercent : ℚ
deriving DecidableEq, Repr

/-- One phase of the task timeline. -/
structure TimelinePhase where
  phase : String
  window : String
  tasks : List String
deriving DecidableEq, Repr

/-- The `DynamicTaskTimeline` result record. -/
structure DynamicTaskTimeline where
  phases : List TimelinePhase
deriving DecidableEq, Repr

/-- One named risk of the risk radar. -/
structure RiskEntry where
  risk : String
  severity : SeverityLevel
  reason : String
  mitigation : String
deriving DecidableEq, Repr

/-- The `RiskRadar` result record. -/
structure RiskRadar where
  topRisks : List RiskEntry
deriving DecidableEq, Repr

/-- The `BudgetPlanningBundle` result record. -/
structure BudgetPlanningBundle where
  budgetArchitecture : BudgetArchitecture
  dynamicTaskTimeline : DynamicTaskTimeline
  riskRadar : RiskRadar
deriving DecidableEq, Repr

/-- The priority-adjusted category weights: for each chosen priority the
modifiers are added and every weight is floored at 4. -/
def adjustedWeights (priorities : List WeddingPriority) :
    NonBufferCategory → ℚ :=
  priorities.foldl
    (fun weights priority => fun category =>
      max 4 (weights category + PRIORITY_MODIFIERS priority category))
    BASE_NON_BUFFER_WEIGHTS

/-- `buildBudgetPlanningBundle` (with the clock made explicit; the
optional pre-computed snapshot argument is omitted as in
`buildVenueStrategyBrief`). -/
def buildBudgetPlanningBundle (input : CoupleContextInput) (now : WDate) :
    BudgetPlanningBundle :=
  let snapshot := buildWeddingSnapshot input now
  let context := snapshot.normalizedContext
  let midpointBudget : ℤ := jsRound ((context.budgetMin + context.budgetMax) / 2)
  let normalizedWeights := normalizePercents (adjustedWeights context.priorities) 90
  let allocations7 : List Allocation := NON_BUFFER_CATEGORIES.map
    (fun category =>
      { category := categoryName category
      , percent := normalizedWeights category
      , amountUsd := jsRound ((midpointBudget : ℚ) * normalizedWeights category / 100) })
  let nonBufferAmount : ℤ := (allocations7.map (fun item => item.amountUsd)).sum
  let bufferAmount : ℤ := midpointBudget - nonBufferAmount
  let allocations := allocations7 ++
    [{ category := "Buffer", percent := 10, amountUsd := bufferAmount }]
  let budgetArchitecture : BudgetArchitecture :=
    { allocations := allocations
    , tradeoffInsights :=
      [ "If you increase decor by $3k, photography quality tier is likely to shift from premium to mid-tier unless overall budget expands."
      , getSecondaryTradeoff (context.priorities.headD .food) ]
    , bufferPercent := 10 }
  let dynamicTaskTimeline : DynamicTaskTimeline :=
    { phases :=
      [ { phase := "12-9 months"
        , window := getDateWindowLabel context 12 9
        , tasks := ["Venue booking", "Planner selection", "Photographer booking"] }
      , { phase := "9-6 months"
        , window := getDateWindowLabel context 9 6
        , tasks := ["Catering decisions", "Design concept", "Attire planning"] }
      , { phase := "6-3 months"
        , window := getDateWindowLabel context 6 3
        , tasks := ["Invitations", "Guest logistics", "Vendor timeline alignment"] }
      , { phase := "3 months to wedding"
        , window := getDateWindowLabel context 3 0
        , tasks := ["Vendor confirmations", "Final fittings", "Run-of-show finalization"] } ] }
  let season := getNormalizedSeason context
  let weddingDate := parseWeddingDate context.weddingDate
  let monthsToWedding : ℤ :=
    match weddingDate with
    | some d => toMonthDifference d now
    | none => 12
  let budgetSpreadPct :=
    (context.budgetMax - context.budgetMin) / max context.budgetMax 1
  let peakAvailabilitySeverity : SeverityLevel :=
    if season = .summer ∨ season = .fall then
      (if monthsToWedding < 10 then .high else .medium)
    else if monthsToWedding < 8 then .medium
    else .low
  let budgetCreepSeverity : SeverityLevel :=
    if snapshot.complexityLevel = .high ∨ budgetSpreadPct < 18 / 100 then .high
    else if snapshot.complexityLevel = .medium then .medium
    else .low
  let guestLogisticsSeverity : SeverityLevel :=
    if context.guestCount > 150 then .high
    else if context.guestCount > 90 then .medium
    else .low
  let topRisks : List RiskEntry := sortByDesc
    (fun r => getRiskSeverityWeight r.severity)
    [ { risk := "Peak season availability"
      , severity := peakAvailabilitySeverity
      , reason :=
          if season = .summer ∨ season = .fall then
            "High-demand months compress venue and vendor options early."
          else "Vendor calendars still tighten quickly when date options are narrow."
      , mitigation :=
          "Lock venue shortlist quickly and hold primary/backup dates before design commitments." }
    , { risk := "Budget creep"
      , severity := budgetCreepSeverity
      , reason :=
          if budgetSpreadPct < 18 / 100 then
            "A narrow budget band leaves less room for late-stage upgrades."
          else "Priority-driven upgrades can compound if contingency is not protected."
      , mitigation :=
          "Freeze category caps after venue contract and preserve the 10% buffer as non-negotiable." }
    , { risk := "Guest logistics"
      , severity := guestLogisticsSeverity
      , reason :=
          if context.guestCount > 120 then
            "Larger guest movement and accommodation coordination adds execution complexity."
          else "Travel, timing, and communication details can still create friction for key guests."
      , mitigation :=
          "Publish transport/accommodation guidance early and assign ownership for RSVP follow-ups." } ]
  let riskRadar : RiskRadar := { topRisks := topRisks.take 3 }
  { budgetArchitecture := budgetArchitecture
  , dynamicTaskTimeline := dynamicTaskTimeline
  , riskRadar := riskRadar }

/-- The `DesignDirection` result record. -/
structure DesignDirection where
  colorPalette : List String
  textures : List String
  lightingStyle : String
  floralDirection : String
  dressCodeSuggestion : String
  narrativeLine : String
deriving DecidableEq, Repr

/-- `getDefaultDesignDirection`. -/
def getDefaultDesignDirection : DesignDirection :=
  { colorPalette := ["ivory", "sand", "warm taupe"]
  , textures := ["linen", "stone", "matte ceramic"]
  , lightingStyle := "warm layered candlelight with soft ambient wash"
  , floralDirection := "ivory florals with structured greenery"
  , dressCodeSuggestion := "Formal attire"
  , narrativeLine :=
      "Soft ivory florals with structured greenery over warm stone textures create a calm, elegant atmosphere that feels timeless in photographs." }

/-- `buildDesignDirection`. -/
def buildDesignDirection (input : CoupleContextInput) : DesignDirection :=
  let context := normalizeContext input
  let normalizedVibes := normalizeVibes context.vibeWords
  let matchedProfiles := normalizedVibes.filterMap vibeLibraryLookup
  match matchedProfiles with
  | [] => getDefaultDesignDirection
  | first :: _ =>
    let colorPalette :=
      (uniqueList (matchedProfiles.flatMap (fun profile => profile.colorPalette))).take 4
    let textures :=
      (uniqueList (matchedProfiles.flatMap (fun profile => profile.textures))).take 4
    let lightingStyle := first.lighting
    let floralDirection := first.floral
    let dressCodeSuggestion :=
      ((matchedProfiles.find? (fun profile =>
        strIncludes profile.dressCode "Black-tie")).getD first).dressCode
    let narrativeLine :=
      colorPalette.headD "" ++ " and " ++
      ((colorPalette.get? 1).getD (colorPalette.headD "")) ++
      " tones layered over " ++ textures.headD "" ++
      " textures, paired with " ++ lightingStyle ++
      ", create a tangible atmosphere " ++
      "that feels cohesive from ceremony through reception."
    { colorPalette := colorPalette
    , textures := textures
    , lightingStyle := lightingStyle
    , floralDirection := floralDirection
    , dressCodeSuggestion := dressCodeSuggestion
    , narrativeLine := narrativeLine }

/-- The `PlannerPitch` result record. -/
structure PlannerPitch where
  openingVision : String
  whyVenueFirst : String
  budgetArchitectureSummary : String
  designDirectionSummary : String
  planningRoadmap : List String
  confidenceClose : String
  markdown : String
deriving DecidableEq, Repr

/-- `buildPlannerPitch` (with the clock made explicit). -/
def buildPlannerPitch (input : CoupleContextInput) (now : WDate) : PlannerPitch :=
  let snapshot := buildWeddingSnapshot input now
  let venueStrategy := buildVenueStrategyBrief snapshot.normalizedContext now
  let budgetPlanning := buildBudgetPlanningBundle snapshot.normalizedContext now
  let designDirection := buildDesignDirection snapshot.normalizedContext
  let topAllocations := joinSep ", "
    (((sortByDesc (fun item => item.percent)
        (budgetPlanning.budgetArchitecture.allocations.filter
          (fun item => item.category != "Buffer"))).take 3).map
      (fun item => item.category ++ " (" ++ jsNumToString item.percent ++ "%)"))
  let topVenue :=
    ((venueStrategy.recommendations.head?).map
      (fun r => r.venueType)).getD "venue"
  let location := snapshot.normalizedContext.location
  let vibeWords := joinSep ", " (snapshot.normalizedContext.vibeWords.take 3)
  let openingVision :=
    "Based on your plan for " ++ location ++ ", with " ++
    toString snapshot.normalizedContext.guestCount ++ " guests and a " ++
    vibeWords ++ " direction, " ++
    "I recommend anchoring decisions around a venue that naturally supports your guest experience and design goals."
  let whyVenueFirst :=
    "Starting with the venue sets scale, confirms the date, and frames layout and lighting constraints. " ++
    "For your profile, this decision is expected to influence " ++
    jsNumToString (getVenueSpendInfluencePct snapshot.normalizedContext.guestCount) ++
    "% " ++
    "of total spend and determines how flexible downstream design choices remain."
  let budgetArchitectureSummary :=
    "Your budget architecture prioritizes " ++ topAllocations ++
    ", while preserving a protected 10% buffer to control risk and avoid late-stage churn."
  let designDirectionSummary :=
    designDirection.narrativeLine ++ " Floral direction: " ++
    designDirection.floralDirection ++ ". " ++
    "Dress code recommendation: " ++ designDirection.dressCodeSuggestion ++ "."
  let step1 :=
    "Shortlist and tour 5 " ++ jsToLower topVenue ++ " options within 3 weeks."
  let step2 := "Lock photographer within 4 weeks of venue booking."
  let step3 := "Finalize aesthetic moodboard before catering tastings."
  let planningRoadmap := [step1, step2, step3]
  let confidenceClose :=
    "The key to reducing stress is sequencing decisions correctly. We anchor the structure first (venue), align budget second, and let design flourish within that framework."
  let markdown := joinSep "\n"
    [ "## Opening Vision"
    , openingVision
    , ""
    , "## Why We Start with the Venue"
    , whyVenueFirst
    , ""
    , "## Your Budget Architecture"
    , budgetArchitectureSummary
    , ""
    , "## Design Direction"
    , designDirectionSummary
    , ""
    , "## Planning Roadmap"
    , "1. " ++ step1
    , "2. " ++ step2
    , "3. " ++ step3
    , ""
    , "## Close with Confidence"
    , confidenceClose ]
  { openingVision := openingVision
  , whyVenueFirst := whyVenueFirst
  , budgetArchitectureSummary := budgetArchitectureSummary
  , designDirectionSummary := designDirectionSummary
  , planningRoadmap := planningRoadmap
  , confidenceClose := confidenceClose
  , markdown := markdown }

/-- A rational that is an integer number of tenths (the values produced
by round-to-one-decimal). -/
def IsTenth (q : ℚ) : Prop := ∃ n : ℤ, q = (n : ℚ) / 10

/-- Look a risk up by its (unique) name in a risk list. -/
def findRisk (name : String) (l : List RiskEntry) : Option RiskEntry :=
  l.find? (fun r => r.risk == name)

/-- `appearsInOrder hs s`: the strings `hs` occur in `s`, in order,
at disjoint positions. -/
def appearsInOrder : List String → String → Prop
  | [], _ => True
  | h :: hs, s => ∃ pre suf, s = pre ++ h ++ suf ∧ appearsInOrder hs suf

/-- The spec's worked example input (§8): Lisbon, 2027-07-10,
120 guests, 35k-45k, food/elegance/photos. -/
def lisbonContext : CoupleContextInput :=
  { location := "Lisbon"
  , weddingDate := some ⟨2027, 7, 10⟩
  , weddingSeason := none
  , guestCount := 120
  , budgetMin := 35000
  , budgetMax := 45000
  , priorities := [.food, .elegance, .photos]
  , vibeWords := ["modern", "romantic", "minimalist"]
  , nonNegotiable := "Excellent food experience" }

/-- A fixed clock instant used to instantiate witnesses. -/
def lisbonNow : WDate := ⟨2026, 10, 12⟩

/-- The worked example with a budget midpoint of 40000.5, so that
per-category rounding makes the buffer residual differ from
round(midpoint × 0.10). -/
def halfDollarContext : CoupleContextInput :=
  { lisbonContext with
    weddingDate := none
    weddingSeason := some .summer
    budgetMax := 45001 }

/-- A winter wedding three months out: off-season with few months to
the event. -/
def winterContext : CoupleContextInput :=
  { location := "Oslo"
  , weddingDate := some ⟨2027, 1, 15⟩
  , weddingSeason := none
  , guestCount := 80
  , budgetMin := 20000
  , budgetMax := 30000
  , priorities := [.food, .party, .photos]
  , vibeWords := ["modern"]
  , nonNegotiable := "Great light" }

/-- The worked example with only a season (no exact date). -/
def seasonOnlyContext : CoupleContextInput :=
  { lisbonContext with
    weddingDate := none
    weddingSeason := some .summer }

/-- The worked example with both an explicit (winter) season and the
July date. -/
def bothSeasonAndDateContext : CoupleContextInput :=
  { lisbonContext with weddingSeason := some .winter }

/-- The worked example with the budget bounds swapped (budgetMax <
budgetMin), used to exercise the validator. -/
def swappedBudgetContext : CoupleContextInput :=
  { lisbonContext with
    budgetMin := 45000
    budgetMax := 35000 }

/-- `Math.round` is the identity on integers. -/
theorem jsRound_intCast (n : ℤ) : jsRound (n : ℚ) = n := by
  unfold jsRound
  rw [add_comm, Int.floor_add_int]
  norm_num

/-- Round-to-one-decimal always produces a tenth. -/
theorem roundTo1_isTenth (x : ℚ) : IsTenth (roundTo1 x) :=
  ⟨jsRound (x * 10), rfl⟩

/-- Tenths are closed under addition. -/
theorem isTenth_add {x y : ℚ} (hx : IsTenth x) (hy : IsTenth y) :
    IsTenth (x + y) := by
  obtain ⟨a, rfl⟩ := hx
  obtain ⟨b, rfl⟩ := hy
  exact ⟨a + b, by push_cast; ring⟩

/-- Tenths are closed under subtraction. -/
theorem isTenth_sub {x y : ℚ} (hx : IsTenth x) (hy : IsTenth y) :
    IsTenth (x - y) := by
  obtain ⟨a, rfl⟩ := hx
  obtain ⟨b, rfl⟩ := hy
  exact ⟨a - b, by push_cast; ring⟩

/-- Integer literals are tenths. -/
theorem isTenth_intCast (n : ℤ) : IsTenth (n : ℚ) :=
  ⟨10 * n, by push_cast; ring⟩

/-- Round-to-one-decimal is the identity on tenths. -/
theorem roundTo1_eq_self {x : ℚ} (hx : IsTenth x) : roundTo1 x = x := by
  obtain ⟨n, rfl⟩ := hx
  unfold roundTo1
  rw [div_mul_cancel₀ (b := (10 : ℚ)) (a := (n : ℚ)) (by norm_num), jsRound_intCast]

/-- The sum over the seven categories, written out. -/
theorem sumOverCats_eq (f : NonBufferCategory → ℚ) :
    sumOverCats f = f .Venue + f .Catering + f .Photography + f .Attire +
      f .Decor + f .Entertainment + f .Planner := by
  simp [sumOverCats, NON_BUFFER_CATEGORIES]
  ring

/-- Updating one category changes the seven-category sum by the
difference at that category. -/
theorem sumOverCats_update (f : NonBufferCategory → ℚ) (L : NonBufferCategory)
    (v : ℚ) : sumOverCats (Function.update f L v) = sumOverCats f - f L + v := by
  cases L <;> simp [sumOverCats_eq, Function.update_apply] <;> ring

/-- The scaled weights of `normalizePercents` are tenths. -/
theorem scaledWeights_isTenth (w : NonBufferCategory → ℚ) (t : ℚ)
    (k : NonBufferCategory) : IsTenth (scaledWeights w t k) :=
  roundTo1_isTenth _

/-- The seven-category sum of any tenth-valued assignment is a tenth. -/
theorem sumOverCats_isTenth {f : NonBufferCategory → ℚ}
    (hf : ∀ k, IsTenth (f k)) : IsTenth (sumOverCats f) := by
  rw [sumOverCats_eq]
  exact isTenth_add (isTenth_add (isTenth_add (isTenth_add (isTenth_add
    (isTenth_add (hf _) (hf _)) (hf _)) (hf _)) (hf _)) (hf _)) (hf _)

/-- The normalization invariant: after scaling, rounding and residual
correction, the seven percents sum to exactly the target of 90. -/
theorem normalizePercents_sum (w : NonBufferCategory → ℚ) :
    sumOverCats (normalizePercents w 90) = 90 := by
  unfold normalizePercents
  have hts : ∀ k, IsTenth (scaledWeights w 90 k) := scaledWeights_isTenth w 90
  have hcur : IsTenth (sumOverCats (scaledWeights w 90)) := sumOverCats_isTenth hts
  have h90 : IsTenth ((90 : ℚ)) := by
    have := isTenth_intCast 90
    norm_num at this ⊢
    exact this
  have hdiff : roundTo1 (90 - sumOverCats (scaledWeights w 90)) =
      90 - sumOverCats (scaledWeights w 90) :=
    roundTo1_eq_self (isTenth_sub h90 hcur)
  by_cases hzero : roundTo1 (90 - sumOverCats (scaledWeights w 90)) = 0
  · simp only [hzero, ne_eq, not_true_eq_false, if_false, ite_false]
    have : sumOverCats (scaledWeights w 90) = 90 := by
      have := hdiff.symm.trans hzero
      linarith
    simpa using this
  · simp only [ne_eq, hzero, not_false_eq_true, if_true, ite_true]
    rw [sumOverCats_update]
    rw [roundTo1_eq_self (isTenth_add (hts _)
      (by rw [hdiff]; exact isTenth_sub h90 hcur))]
    rw [hdiff]
    ring

/-- C1: for every valid couple-context input, `buildBudgetPlanningBundle`
returns a budget architecture whose allocations list has exactly 8
entries (the 7 spend categories plus one Buffer entry), whose percents
sum to exactly 100, and whose Buffer entry has percent exactly 10. -/
theorem budget_allocations_sum_100 (c : CoupleContextInput) (now : WDate)
    (_h : ValidContext c) :
    (buildBudgetPlanningBundle c now).budgetArchitecture.allocations.length = 8 ∧
    (buildBudgetPlanningBundle c now).budgetArchitecture.allocations.map
      (fun a => a.category) =
      ["Venue", "Catering", "Photography", "Attire", "Decor",
       "Entertainment", "Planner", "Buffer"] ∧
    ((buildBudgetPlanningBundle c now).budgetArchitecture.allocations.map
      (fun a => a.percent)).sum = 100 ∧
    ∀ a ∈ (buildBudgetPlanningBundle c now).budgetArchitecture.allocations,
      a.category = "Buffer" → a.percent = 10 := by
  have hsum := normalizePercents_sum (adjustedWeights c.priorities)
  rw [sumOverCats_eq] at hsum
  refine ⟨?_, ?_, ?_, ?_⟩ <;>
    simp only [buildBudgetPlanningBundle, buildWeddingSnapshot, normalizeContext,
      NON_BUFFER_CATEGORIES, List.map_cons, List.map_nil, List.append_assoc,
      List.cons_append, List.nil_append, List.map_append, List.length_cons,
      List.length_nil, List.sum_cons, List.sum_nil, categoryName,
      List.mem_cons, List.mem_singleton]
  · linarith
  · intro a ha
    rcases ha with rfl | rfl | rfl | rfl | rfl | rfl | rfl | rfl | h9
    all_goals try
      intro hcat
      first
        | rfl
        | exact absurd hcat (by decide)
    all_goals simp_all

/-- C1 witness: the invariant at the spec's worked example. -/
theorem budget_allocations_sum_100_witness :
    ValidContext lisbonContext ∧
    ((buildBudgetPlanningBundle lisbonContext lisbonNow).budgetArchitecture.allocations.length = 8 ∧
    (buildBudgetPlanningBundle lisbonContext lisbonNow).budgetArchitecture.allocations.map
      (fun a => a.category) =
      ["Venue", "Catering", "Photography", "Attire", "Decor",
       "Entertainment", "Planner", "Buffer"] ∧
    ((buildBudgetPlanningBundle lisbonContext lisbonNow).budgetArchitecture.allocations.map
      (fun a => a.percent)).sum = 100 ∧
    ∀ a ∈ (buildBudgetPlanningBundle lisbonContext lisbonNow).budgetArchitecture.allocations,
      a.category = "Buffer" → a.percent = 10) :=
  ⟨by decide, budget_allocations_sum_100 lisbonContext lisbonNow (by decide)⟩

/-- C9: for every valid couple-context input, the dollar amounts of all 8
allocation entries sum exactly to round((budgetMin + budgetMax) / 2):
the Buffer amount is the residual of the rounded midpoint minus the
seven rounded category amounts. -/
theorem allocation_amounts_sum_to_midpoint (c : CoupleContextInput)
    (now : WDate) (_h : ValidContext c) :
    ((buildBudgetPlanningBundle c now).budgetArchitecture.allocations.map
      (fun a => a.amountUsd)).sum = jsRound ((c.budgetMin + c.budgetMax) / 2) := by
  simp only [buildBudgetPlanningBundle, buildWeddingSnapshot, normalizeContext,
    NON_BUFFER_CATEGORIES, List.map_cons, List.map_nil, List.append_assoc,
    List.cons_append, List.nil_append, List.map_append,
    List.sum_cons, List.sum_nil]
  ring

/-- C2 (amended): for every valid couple-context input, the final Buffer
entry's amountUsd equals the rounded midpoint budget minus the sum of
the seven rounded category amounts (the rounding residual), not an
independently rounded 10% share. -/
theorem buffer_amount_residual (c : CoupleContextInput) (now : WDate)
    (_h : ValidContext c) :
    ∃ a, (buildBudgetPlanningBundle c now).budgetArchitecture.allocations.getLast? = some a ∧
      a.category = "Buffer" ∧
      a.amountUsd = jsRound ((c.budgetMin + c.budgetMax) / 2) -
        (((buildBudgetPlanningBundle c now).budgetArchitecture.allocations.take 7).map
          (fun x => x.amountUsd)).sum := by
  simp only [buildBudgetPlanningBundle, buildWeddingSnapshot, normalizeContext,
    NON_BUFFER_CATEGORIES, List.map_cons, List.map_nil, List.append_assoc,
    List.cons_append, List.nil_append, List.map_append,
    List.sum_cons, List.sum_nil]
  exact ⟨_, rfl, rfl, by simp⟩

set_option maxRecDepth 10000 in
/-- C2 counterexample: with budgetMin 35000 and budgetMax 45001 (midpoint
40000.5) the engine's Buffer amount is the rounding residual 4001, while
round(midpointBudget × 0.10) = 4000, so the claimed formula fails. -/
theorem buffer_amount_formula_counterexample :
    ((buildBudgetPlanningBundle halfDollarContext lisbonNow).budgetArchitecture.allocations.getLast?).map
      (fun a => a.amountUsd) = some 4001 ∧
    jsRound ((halfDollarContext.budgetMin + halfDollarContext.budgetMax) / 2 *
      (10 / 100)) = 4000 := by
  constructor
  · decide
  · decide

/-- C2 witness: the residual characterization at the worked example. -/
theorem buffer_amount_residual_witness :
    ValidContext halfDollarContext ∧
    ∃ a, (buildBudgetPlanningBundle halfDollarContext lisbonNow).budgetArchitecture.allocations.getLast? = some a ∧
      a.category = "Buffer" ∧
      a.amountUsd = jsRound ((halfDollarContext.budgetMin + halfDollarContext.budgetMax) / 2) -
        (((buildBudgetPlanningBundle halfDollarContext lisbonNow).budgetArchitecture.allocations.take 7).map
          (fun x => x.amountUsd)).sum :=
  ⟨by decide, buffer_amount_residual halfDollarContext lisbonNow (by decide)⟩

/-- C9 witness: the amounts of the worked example sum to the rounded
midpoint 40000. -/
theorem allocation_amounts_sum_to_midpoint_witness :
    ValidContext lisbonContext ∧
    ((buildBudgetPlanningBundle lisbonContext lisbonNow).budgetArchitecture.allocations.map
      (fun a => a.amountUsd)).sum =
      jsRound ((lisbonContext.budgetMin + lisbonContext.budgetMax) / 2) :=
  ⟨by decide, allocation_amounts_sum_to_midpoint lisbonContext lisbonNow (by decide)⟩

/-- C3: for every valid couple-context input, the snapshot's
recommendedStartingPillar is "theme-first" iff guestCount ≤ 60 and the
per-guest midpoint budget is at least 700 and the priorities contain
elegance or intimacy; every other combination yields "venue-first". -/
theorem starting_pillar_iff (c : CoupleContextInput) (now : WDate)
    (_h : ValidContext c) :
    ((buildWeddingSnapshot c now).recommendedStartingPillar = "theme-first" ↔
      (c.guestCount ≤ 60 ∧
        (c.budgetMin + c.budgetMax) / 2 / (c.guestCount : ℚ) ≥ 700 ∧
        (WeddingPriority.elegance ∈ c.priorities ∨
          WeddingPriority.intimacy ∈ c.priorities))) ∧
    (¬ (c.guestCount ≤ 60 ∧
        (c.budgetMin + c.budgetMax) / 2 / (c.guestCount : ℚ) ≥ 700 ∧
        (WeddingPriority.elegance ∈ c.priorities ∨
          WeddingPriority.intimacy ∈ c.priorities)) →
      (buildWeddingSnapshot c now).recommendedStartingPillar = "venue-first") := by
  simp only [buildWeddingSnapshot, normalizeContext]
  constructor
  · split
    · next hcond =>
      simp only [true_iff]
      simpa [List.contains, List.elem_iff] using hcond
    · next hcond =>
      constructor
      · intro hfalse
        exact absurd hfalse (by decide)
      · intro hc
        exact absurd (by simpa [List.contains, List.elem_iff] using hc) hcond
  · intro hnot
    split
    · next hcond =>
      exact absurd (by simpa [List.contains, List.elem_iff] using hcond) hnot
    · rfl

set_option maxRecDepth 10000 in
/-- C3 witness: the spec's theme-first example (50 guests, 50k-70k,
intimacy/elegance/photos) together with the venue-first worked example. -/
theorem starting_pillar_iff_witness :
    ValidContext lisbonContext ∧
    (((buildWeddingSnapshot lisbonContext lisbonNow).recommendedStartingPillar = "theme-first" ↔
      (lisbonContext.guestCount ≤ 60 ∧
        (lisbonContext.budgetMin + lisbonContext.budgetMax) / 2 /
          (lisbonContext.guestCount : ℚ) ≥ 700 ∧
        (WeddingPriority.elegance ∈ lisbonContext.priorities ∨
          WeddingPriority.intimacy ∈ lisbonContext.priorities))) ∧
    (¬ (lisbonContext.guestCount ≤ 60 ∧
        (lisbonContext.budgetMin + lisbonContext.budgetMax) / 2 /
          (lisbonContext.guestCount : ℚ) ≥ 700 ∧
        (WeddingPriority.elegance ∈ lisbonContext.priorities ∨
          WeddingPriority.intimacy ∈ lisbonContext.priorities)) →
      (buildWeddingSnapshot lisbonContext lisbonNow).recommendedStartingPillar = "venue-first")) :=
  ⟨by decide, starting_pillar_iff lisbonContext lisbonNow (by decide)⟩

/-- Stable insertion produces a permutation of consing. -/
theorem insertByDesc_perm {α : Type} (key : α → ℚ) (x : α) (l : List α) :
    (insertByDesc key x l).Perm (x :: l) := by
  induction l with
  | nil => exact List.Perm.refl _
  | cons y ys ih =>
    unfold insertByDesc
    split
    · exact (ih.cons y).trans (List.Perm.swap x y ys)
    · exact List.Perm.refl _

/-- The stable descending sort permutes its input. -/
theorem sortByDesc_perm {α : Type} (key : α → ℚ) (l : List α) :
    (sortByDesc key l).Perm l := by
  induction l with
  | nil => exact List.Perm.refl _
  | cons x xs ih =>
    exact (insertByDesc_perm key x (sortByDesc key xs)).trans (ih.cons x)

/-- The stable descending sort preserves length. -/
theorem sortByDesc_length {α : Type} (key : α → ℚ) (l : List α) :
    (sortByDesc key l).length = l.length :=
  (sortByDesc_perm key l).length_eq

/-- Looking the peak-season risk up by name, after sorting, returns the
peak-season entry (the names of the three risks are distinct). -/
theorem findRisk_peak_sorted (key : RiskEntry → ℚ) (p b g : RiskEntry)
    (hp : p.risk = "Peak season availability")
    (hb : b.risk = "Budget creep") (hg : g.risk = "Guest logistics") :
    findRisk "Peak season availability" (sortByDesc key [p, b, g]) = some p := by
  have hbp : ("Budget creep" == "Peak season availability") = false := by decide
  have hgp : ("Guest logistics" == "Peak season availability") = false := by decide
  have hpp : ("Peak season availability" == "Peak season availability") = true := by
    decide
  unfold findRisk
  simp only [sortByDesc, insertByDesc]
  split_ifs <;> simp only [insertByDesc] <;> split_ifs <;>
    simp [List.find?, hp, hb, hg, hbp, hgp, hpp]

/-- C5 (amended): for every valid couple-context input, the
"Peak season availability" risk is high iff the normalized season is
summer or fall and fewer than 10 months remain to the event; it is
medium for other in-season cases and for off-season weddings with fewer
than 8 months remaining; it is low otherwise.  When no exact date is
given, months-to-event is taken as 12 (so no date never yields high, and
off-season without a date is always low). -/
theorem peak_severity_characterization (c : CoupleContextInput) (now : WDate)
    (_h : ValidContext c) :
    (findRisk "Peak season availability"
      (buildBudgetPlanningBundle c now).riskRadar.topRisks).map
        (fun r => r.severity) =
    some (if getNormalizedSeason c = .summer ∨ getNormalizedSeason c = .fall then
        (if (match parseWeddingDate c.weddingDate with
              | some d => toMonthDifference d now
              | none => 12) < 10 then .high else .medium)
      else if (match parseWeddingDate c.weddingDate with
              | some d => toMonthDifference d now
              | none => 12) < 8 then .medium
      else .low) := by
  simp only [buildBudgetPlanningBundle, buildWeddingSnapshot, normalizeContext]
  rw [List.take_of_length_le (by rw [sortByDesc_length]; simp)]
  rw [findRisk_peak_sorted _ _ _ _ rfl rfl rfl]
  rfl

set_option maxRecDepth 10000 in
/-- C5 counterexample: a winter wedding (inferred from the January date)
three months out.  The code assigns severity medium (off-season,
months-to-event < 8); the claim as stated assigns low to every
off-season case. -/
theorem peak_severity_offseason_counterexample :
    getNormalizedSeason winterContext = .winter ∧
    (findRisk "Peak season availability"
      (buildBudgetPlanningBundle winterContext lisbonNow).riskRadar.topRisks).map
        (fun r => r.severity) = some .medium := by
  constructor
  · decide
  · decide

set_option maxRecDepth 10000 in
/-- C5 witness: the characterization at the spec's worked example
(summer, 8 months out, hence high). -/
theorem peak_severity_characterization_witness :
    ValidContext lisbonContext ∧
    (findRisk "Peak season availability"
      (buildBudgetPlanningBundle lisbonContext lisbonNow).riskRadar.topRisks).map
        (fun r => r.severity) =
    some (if getNormalizedSeason lisbonContext = .summer ∨
            getNormalizedSeason lisbonContext = .fall then
        (if (match parseWeddingDate lisbonContext.weddingDate with
              | some d => toMonthDifference d lisbonNow
              | none => 12) < 10 then .high else .medium)
      else if (match parseWeddingDate lisbonContext.weddingDate with
              | some d => toMonthDifference d lisbonNow
              | none => 12) < 8 then .medium
      else .low) :=
  ⟨by decide, peak_severity_characterization lisbonContext lisbonNow (by decide)⟩

/-- A valid context's wedding date, when present, is a real calendar
date (the schema's refinement would otherwise have rejected it). -/
theorem validContext_date_valid {c : CoupleContextInput} {d : WDate}
    (h : ValidContext c) (hd : c.weddingDate = some d) :
    isValidCalendarDate d = true := by
  unfold ValidContext zodIssues at h
  by_cases hb : baseIssues c = []
  · rw [if_pos hb] at h
    unfold refineIssues at h
    rw [hd] at h
    by_contra hvalid
    rcases List.append_eq_nil.mp h with ⟨-, h2⟩
    simp [hvalid] at h2
  · rw [if_neg hb] at h
    exact absurd h hb

/-- C10: when the input supplies both a weddingDate and a weddingSeason,
the season-derived outputs (the snapshot's season-pressure contribution
to the complexity score and the peak-season risk severity) use the
supplied weddingSeason; the season inferred from the date's month would
be used only if weddingSeason were absent. -/
theorem explicit_season_overrides_inferred (c : CoupleContextInput)
    (now : WDate) (s : WeddingSeason) (d : WDate) (h : ValidContext c)
    (hs : c.weddingSeason = some s) (hd : c.weddingDate = some d) :
    getNormalizedSeason c = s ∧
    getNormalizedSeason { c with weddingSeason := none } =
      inferSeasonFromDate d ∧
    ((findRisk "Peak season availability"
      (buildBudgetPlanningBundle c now).riskRadar.topRisks).map
        (fun r => r.severity) =
      some (if s = .summer ∨ s = .fall then
          (if toMonthDifference d now < 10 then .high else .medium)
        else if toMonthDifference d now < 8 then .medium else .low)) ∧
    (buildWeddingSnapshot c now).complexityScore =
      clamp (getGuestLoadScore c.guestCount +
        getTimelinePressure (some d) now + getSeasonPressure s +
        getPriorityPressure c.priorities +
        getNonNegotiablePressure c.nonNegotiable) 0 100 := by
  have hvalid : isValidCalendarDate d = true := validContext_date_valid h hd
  have hparse : parseWeddingDate c.weddingDate = some d := by
    rw [hd]
    simp [parseWeddingDate, hvalid]
  have g1 : getNormalizedSeason c = s := by
    unfold getNormalizedSeason
    rw [hs]
  refine ⟨g1, ?_, ?_, ?_⟩
  · unfold getNormalizedSeason
    rw [show ({ c with weddingSeason := none } : CoupleContextInput).weddingDate =
      c.weddingDate from rfl, hparse]
  · simp only [buildBudgetPlanningBundle, buildWeddingSnapshot, normalizeContext]
    rw [List.take_of_length_le (by rw [sortByDesc_length]; simp)]
    rw [findRisk_peak_sorted _ _ _ _ rfl rfl rfl]
    rw [Option.map_some']
    simp only [hparse, g1]
  · simp only [buildWeddingSnapshot, normalizeContext]
    rw [hparse, g1]

set_option maxRecDepth 10000 in
/-- C10 witness: the worked example with an explicit winter season and
the July date; all season-derived outputs use winter. -/
theorem explicit_season_overrides_inferred_witness :
    ValidContext bothSeasonAndDateContext ∧
    (getNormalizedSeason bothSeasonAndDateContext = .winter ∧
    getNormalizedSeason { bothSeasonAndDateContext with weddingSeason := none } =
      inferSeasonFromDate ⟨2027, 7, 10⟩ ∧
    ((findRisk "Peak season availability"
      (buildBudgetPlanningBundle bothSeasonAndDateContext lisbonNow).riskRadar.topRisks).map
        (fun r => r.severity) =
      some (if WeddingSeason.winter = WeddingSeason.summer ∨
              WeddingSeason.winter = WeddingSeason.fall then
          (if toMonthDifference ⟨2027, 7, 10⟩ lisbonNow < 10 then .high else .medium)
        else if toMonthDifference ⟨2027, 7, 10⟩ lisbonNow < 8 then .medium
        else .low)) ∧
    (buildWeddingSnapshot bothSeasonAndDateContext lisbonNow).complexityScore =
      clamp (getGuestLoadScore bothSeasonAndDateContext.guestCount +
        getTimelinePressure (some ⟨2027, 7, 10⟩) lisbonNow +
        getSeasonPressure .winter +
        getPriorityPressure bothSeasonAndDateContext.priorities +
        getNonNegotiablePressure bothSeasonAndDateContext.nonNegotiable) 0 100) :=
  ⟨by decide, explicit_season_overrides_inferred bothSeasonAndDateContext lisbonNow
    .winter ⟨2027, 7, 10⟩ (by decide) (by decide) (by decide)⟩

set_option maxRecDepth 10000 in
/-- C6 counterexample: with the identical input (the worked example,
whose wedding date is 2027-07-10), two calls at different clock times
(2026-06-01 and 2026-12-01) produce different snapshots: the timeline
pressure flips between 7 and 12 months-to-event thresholds, so the
complexity scores differ (52 vs 57).  The clock enters through the
defaulted `now = new Date()` parameter of `toMonthDifference`, which no
caller supplies, i.e. an implicit read of the global clock. -/
theorem clock_dependence_counterexample :
    (buildWeddingSnapshot lisbonContext ⟨2026, 6, 1⟩).complexityScore ≠
    (buildWeddingSnapshot lisbonContext ⟨2026, 12, 1⟩).complexityScore := by
  decide

/-- C6 (amended): every component is a deterministic pure function of
the input and the clock instant; when the input supplies no weddingDate,
the output is independent of the clock, so repeated calls are
byte-identical.  With a weddingDate, months-to-event reads the current
date, so calls at different times may differ. -/
theorem components_clock_independent_without_date (c : CoupleContextInput)
    (now1 now2 : WDate) (_h : ValidContext c) (hd : c.weddingDate = none) :
    buildWeddingSnapshot c now1 = buildWeddingSnapshot c now2 ∧
    buildVenueStrategyBrief c now1 = buildVenueStrategyBrief c now2 ∧
    buildBudgetPlanningBundle c now1 = buildBudgetPlanningBundle c now2 ∧
    buildPlannerPitch c now1 = buildPlannerPitch c now2 := by
  have hsnap : ∀ now, buildWeddingSnapshot c now =
      buildWeddingSnapshot c ⟨0, 0, 0⟩ := by
    intro now
    simp [buildWeddingSnapshot, normalizeContext, hd, parseWeddingDate,
      getTimelinePressure]
  have hctx : (buildWeddingSnapshot c ⟨0, 0, 0⟩).normalizedContext = c := rfl
  have hbrief : ∀ now, buildVenueStrategyBrief c now =
      buildVenueStrategyBrief c ⟨0, 0, 0⟩ := by
    intro now
    simp only [buildVenueStrategyBrief, hsnap now, hctx, hd, parseWeddingDate]
  have hbundle : ∀ now, buildBudgetPlanningBundle c now =
      buildBudgetPlanningBundle c ⟨0, 0, 0⟩ := by
    intro now
    simp only [buildBudgetPlanningBundle, hsnap now, hctx, hd, parseWeddingDate]
  have hpitch : ∀ now, buildPlannerPitch c now =
      buildPlannerPitch c ⟨0, 0, 0⟩ := by
    intro now
    simp only [buildPlannerPitch, hsnap now]
    rw [show (buildWeddingSnapshot c ⟨0, 0, 0⟩).normalizedContext = c from rfl]
    rw [hbrief now, hbundle now]
  exact ⟨(hsnap now1).trans (hsnap now2).symm,
    (hbrief now1).trans (hbrief now2).symm,
    (hbundle now1).trans (hbundle now2).symm,
    (hpitch now1).trans (hpitch now2).symm⟩

set_option maxRecDepth 10000 in
/-- C6 witness: clock independence at the season-only worked example,
for two distinct clock instants. -/
theorem components_clock_independent_without_date_witness :
    ValidContext seasonOnlyContext ∧ seasonOnlyContext.weddingDate = none ∧
    (buildWeddingSnapshot seasonOnlyContext ⟨2026, 6, 1⟩ =
      buildWeddingSnapshot seasonOnlyContext ⟨2026, 12, 1⟩ ∧
    buildVenueStrategyBrief seasonOnlyContext ⟨2026, 6, 1⟩ =
      buildVenueStrategyBrief seasonOnlyContext ⟨2026, 12, 1⟩ ∧
    buildBudgetPlanningBundle seasonOnlyContext ⟨2026, 6, 1⟩ =
      buildBudgetPlanningBundle seasonOnlyContext ⟨2026, 12, 1⟩ ∧
    buildPlannerPitch seasonOnlyContext ⟨2026, 6, 1⟩ =
      buildPlannerPitch seasonOnlyContext ⟨2026, 12, 1⟩) :=
  ⟨by decide, rfl, components_clock_independent_without_date seasonOnlyContext
    ⟨2026, 6, 1⟩ ⟨2026, 12, 1⟩ (by decide) rfl⟩

/-- C7: for inputs passing the per-field bounds checks (zod runs the
superRefine checks only then), budgetMax < budgetMin is rejected with an
issue whose path references budgetMax; omitting both weddingDate and
weddingSeason is rejected with an issue whose path references
weddingDate; and when budgetMax ≥ budgetMin and at least one of
date/season is present, the input is never rejected for either of these
two reasons. -/
theorem validator_budget_and_date_checks (c : CoupleContextInput)
    (hb : baseIssues c = []) :
    (c.budgetMax < c.budgetMin →
      ∃ issue ∈ zodIssues c, issue.path = ["budgetMax"]) ∧
    (c.weddingDate = none ∧ c.weddingSeason = none →
      ∃ issue ∈ zodIssues c, issue.path = ["weddingDate"]) ∧
    (c.budgetMin ≤ c.budgetMax ∧
        (c.weddingDate ≠ none ∨ c.weddingSeason ≠ none) →
      ∀ issue ∈ zodIssues c,
        issue.message ≠ "budgetMax must be greater than or equal to budgetMin." ∧
        issue.message ≠ "Provide either weddingDate or weddingSeason.") := by
  have hz : zodIssues c = refineIssues c := by
    unfold zodIssues
    rw [if_pos hb]
  refine ⟨?_, ?_, ?_⟩
  · intro hlt
    refine ⟨⟨["budgetMax"], "budgetMax must be greater than or equal to budgetMin."⟩, ?_, rfl⟩
    rw [hz]
    unfold refineIssues
    rw [if_pos hlt]
    simp
  · intro hmissing
    refine ⟨⟨["weddingDate"], "Provide either weddingDate or weddingSeason."⟩, ?_, rfl⟩
    rw [hz]
    unfold refineIssues
    rw [if_pos hmissing]
    simp
  · rintro ⟨hle, hpresent⟩ issue hmem
    rw [hz] at hmem
    unfold refineIssues at hmem
    rw [if_neg (by
      rintro ⟨hdn, hsn⟩
      rcases hpresent with hp | hp <;> exact hp (by assumption))] at hmem
    rw [if_neg (not_lt.mpr hle)] at hmem
    simp only [List.nil_append, List.mem_append] at hmem
    constructor <;> rcases hmem with hmem | hmem <;> revert hmem <;>
      split <;> try split
    all_goals first
      | (simp only [List.mem_singleton]
         rintro rfl
         decide)
      | simp

/-- C7 witness: the validator facts at an input with swapped budget
bounds (all per-field bounds hold). -/
theorem validator_budget_and_date_checks_witness :
    baseIssues swappedBudgetContext = [] ∧
    ((swappedBudgetContext.budgetMax < swappedBudgetContext.budgetMin →
      ∃ issue ∈ zodIssues swappedBudgetContext, issue.path = ["budgetMax"]) ∧
    (swappedBudgetContext.weddingDate = none ∧
        swappedBudgetContext.weddingSeason = none →
      ∃ issue ∈ zodIssues swappedBudgetContext, issue.path = ["weddingDate"]) ∧
    (swappedBudgetContext.budgetMin ≤ swappedBudgetContext.budgetMax ∧
        (swappedBudgetContext.weddingDate ≠ none ∨
          swappedBudgetContext.weddingSeason ≠ none) →
      ∀ issue ∈ zodIssues swappedBudgetContext,
        issue.message ≠ "budgetMax must be greater than or equal to budgetMin." ∧
        issue.message ≠ "Provide either weddingDate or weddingSeason.")) :=
  ⟨by decide, validator_budget_and_date_checks swappedBudgetContext (by decide)⟩

/-- String concatenation is associative. -/
theorem strAppend_assoc (a b c : String) : a ++ b ++ c = a ++ (b ++ c) := by
  cases a; cases b; cases c
  exact congrArg String.mk (List.append_assoc _ _ _)

/-- A header at the front of the string is an in-order occurrence. -/
theorem appearsInOrder_head (h : String) (hs : List String) (suf : String)
    (H : appearsInOrder hs suf) : appearsInOrder (h :: hs) (h ++ suf) :=
  ⟨"", suf, by rw [String.empty_append], H⟩

/-- In-order occurrences survive prepending text. -/
theorem appearsInOrder_extend (a : String) (hs : List String) (s : String)
    (H : appearsInOrder hs s) : appearsInOrder hs (a ++ s) := by
  cases hs with
  | nil => trivial
  | cons h t =>
    rcases H with ⟨pre, suf, rfl, hrest⟩
    exact ⟨a ++ pre, suf, by simp only [strAppend_assoc], hrest⟩

set_option maxHeartbeats 4000000 in
/-- C8: for every valid couple-context input, the planner pitch markdown
contains the six fixed section headers in order, and the planning
roadmap has exactly 3 entries. -/
theorem planner_pitch_markdown_sections (c : CoupleContextInput)
    (now : WDate) (_h : ValidContext c) :
    appearsInOrder ["## Opening Vision", "## Why We Start with the Venue",
      "## Your Budget Architecture", "## Design Direction",
      "## Planning Roadmap", "## Close with Confidence"]
      (buildPlannerPitch c now).markdown ∧
    (buildPlannerPitch c now).planningRoadmap.length = 3 := by
  constructor
  · simp only [buildPlannerPitch, joinSep, List.foldl, strAppend_assoc,
      String.empty_append]
    repeat
      first
        | exact trivial
        | refine appearsInOrder_head _ _ _ ?_
        | refine appearsInOrder_extend _ _ _ ?_
  · rfl

set_option maxRecDepth 10000 in
/-- C8 witness: the six headers occur in order in the worked example's
pitch markdown, and its roadmap has 3 steps. -/
theorem planner_pitch_markdown_sections_witness :
    ValidContext lisbonContext ∧
    (appearsInOrder ["## Opening Vision", "## Why We Start with the Venue",
      "## Your Budget Architecture", "## Design Direction",
      "## Planning Roadmap", "## Close with Confidence"]
      (buildPlannerPitch lisbonContext lisbonNow).markdown ∧
    (buildPlannerPitch lisbonContext lisbonNow).planningRoadmap.length = 3) :=
  ⟨by decide, planner_pitch_markdown_sections lisbonContext lisbonNow (by decide)⟩

/-- Membership in a stable insertion. -/
theorem mem_insertByDesc {α : Type} (key : α → ℚ) (x a : α) (l : List α) :
    a ∈ insertByDesc key x l ↔ a = x ∨ a ∈ l := by
  rw [(insertByDesc_perm key x l).mem_iff]
  simp

/-- Inserting an element whose index is below every index in a list that
is sorted by descending key with index tie-breaks keeps it sorted. -/
theorem insertByDesc_pairwise {α : Type} (key : α → ℚ) (idx : α → ℕ)
    (x : α) (l : List α)
    (hl : l.Pairwise (fun a b => key b < key a ∨
      (key a = key b ∧ idx a < idx b)))
    (hx : ∀ y ∈ l, idx x < idx y) :
    (insertByDesc key x l).Pairwise (fun a b => key b < key a ∨
      (key a = key b ∧ idx a < idx b)) := by
  induction l with
  | nil => simp [insertByDesc]
  | cons y ys ih =>
    rw [insertByDesc]
    rcases List.pairwise_cons.mp hl with ⟨hy, hys⟩
    split_ifs with hcmp
    · refine List.pairwise_cons.mpr
        ⟨?_, ih hys (fun z hz => hx z (List.mem_cons_of_mem y hz))⟩
      intro z hz
      rcases (mem_insertByDesc key x z ys).mp hz with rfl | hzys
      · exact Or.inl hcmp
      · exact hy z hzys
    · have hyx : key y ≤ key x := not_lt.mp hcmp
      refine List.pairwise_cons.mpr ⟨?_, hl⟩
      intro z hz
      rcases List.mem_cons.mp hz with rfl | hzys
      · by_cases hstrict : key z < key x
        · exact Or.inl hstrict
        · exact Or.inr ⟨le_antisymm (not_lt.mp hstrict) hyx, 
            hx z (List.mem_cons_self _ _)⟩
      · have hzy : key z ≤ key y := by
          rcases hy z hzys with hlt | ⟨heq, _⟩
          · exact hlt.le
          · exact heq.ge
        have hzx : key z ≤ key x := le_trans hzy hyx
        by_cases hstrict : key z < key x
        · exact Or.inl hstrict
        · exact Or.inr ⟨le_antisymm (not_lt.mp hstrict) hzx,
            hx z (List.mem_cons_of_mem y hzys)⟩

/-- A stable descending sort of a list with strictly increasing indices
is sorted by descending key with index (input-order) tie-breaks. -/
theorem sortByDesc_pairwise {α : Type} (key : α → ℚ) (idx : α → ℕ)
    (l : List α) (hidx : l.Pairwise (fun a b => idx a < idx b)) :
    (sortByDesc key l).Pairwise (fun a b => key b < key a ∨
      (key a = key b ∧ idx a < idx b)) := by
  induction l with
  | nil => simp [sortByDesc]
  | cons x xs ih =>
    rw [sortByDesc]
    rcases List.pairwise_cons.mp hidx with ⟨hx, hxs⟩
    refine insertByDesc_pairwise key idx x _ (ih hxs) ?_
    intro y hy
    exact hx y ((sortByDesc_perm key xs).mem_iff.mp hy)

/-- Enumeration indices are strictly increasing. -/
theorem pairwise_fst_lt_enumFrom {α : Type} (n : ℕ) (l : List α) :
    (List.enumFrom n l).Pairwise (fun a b => a.1 < b.1) := by
  induction l generalizing n with
  | nil => simp
  | cons x xs ih =>
    rw [List.enumFrom]
    refine List.pairwise_cons.mpr ⟨?_, ih (n + 1)⟩
    intro y hy
    have := List.le_fst_of_mem_enumFrom hy
    omega

/-- Enumeration indices are strictly increasing (from zero). -/
theorem pairwise_fst_lt_enum {α : Type} (l : List α) :
    l.enum.Pairwise (fun a b => a.1 < b.1) :=
  pairwise_fst_lt_enumFrom 0 l

/-- Stable insertion commutes with mapping when the key factors through
the map. -/
theorem insertByDesc_map {α β : Type} (g : β → α) (key : α → ℚ) (x : β)
    (l : List β) :
    (insertByDesc (fun y => key (g y)) x l).map g =
      insertByDesc key (g x) (l.map g) := by
  induction l with
  | nil => rfl
  | cons y ys ih =>
    simp only [insertByDesc, List.map_cons]
    split_ifs <;> simp [List.map_cons, ih]

/-- The stable descending sort commutes with mapping when the key
factors through the map. -/
theorem sortByDesc_map {α β : Type} (g : β → α) (key : α → ℚ)
    (l : List β) :
    (sortByDesc (fun y => key (g y)) l).map g = sortByDesc key (l.map g) := by
  induction l with
  | nil => rfl
  | cons x xs ih =>
    simp only [sortByDesc, List.map_cons]
    rw [insertByDesc_map, ih]

/-- C4: for every valid couple-context input, the venue brief returns
exactly 3 recommendations; they are the first 3 of the unique
arrangement of the scored catalog that is sorted by descending fitScore
with ties broken by catalog declaration order; and each recommendation's
fitScore is clamp(55, 98, 52 + 9·vibeHits + 10·priorityHits +
capacityAdjustment) for its catalog archetype. -/
theorem venue_recommendations_ranking (c : CoupleContextInput) (now : WDate)
    (_h : ValidContext c) :
    ∃ ranked : List (ℕ × VenueRecommendation),
      ranked.Perm (venueScored c).enum ∧
      ranked.Pairwise (fun a b => b.2.fitScore < a.2.fitScore ∨
        (a.2.fitScore = b.2.fitScore ∧ a.1 < b.1)) ∧
      (buildVenueStrategyBrief c now).recommendations =
        (ranked.map Prod.snd).take 3 ∧
      (buildVenueStrategyBrief c now).recommendations.length = 3 ∧
      ∀ r ∈ (buildVenueStrategyBrief c now).recommendations,
        ∃ p ∈ VENUE_PROFILES, r.venueType = p.venueType ∧
          r.fitScore = clamp (52 +
            9 * ((matchedVibes p (normalizeVibes c.vibeWords)).length : ℚ) +
            10 * ((p.priorities.filter
              (fun q => c.priorities.contains q)).length : ℚ) +
            capacityAdjustment p c.guestCount) 55 98 := by
  have hctx : (buildWeddingSnapshot c now).normalizedContext = c := rfl
  refine ⟨sortByDesc (fun pr : ℕ × VenueRecommendation => pr.2.fitScore)
      (venueScored c).enum,
    sortByDesc_perm _ _,
    sortByDesc_pairwise (fun pr : ℕ × VenueRecommendation => pr.2.fitScore)
      Prod.fst _ (pairwise_fst_lt_enum _), ?_, ?_, ?_⟩
  · simp only [buildVenueStrategyBrief, hctx]
    rw [sortByDesc_map Prod.snd (fun r : VenueRecommendation => r.fitScore)
      ((venueScored c).enum), List.enum_map_snd]
  · simp only [buildVenueStrategyBrief, hctx]
    rw [List.length_take, sortByDesc_length]
    simp [venueScored, VENUE_PROFILES]
  · intro r hr
    simp only [buildVenueStrategyBrief, hctx] at hr
    have hr2 : r ∈ venueScored c :=
      (sortByDesc_perm _ _).mem_iff.mp (List.mem_of_mem_take hr)
    rcases List.mem_map.mp hr2 with ⟨p, hp, rfl⟩
    refine ⟨p, hp, rfl, ?_⟩
    simp only [scoreProfile, scoreVenueFit]
    congr 1
    ring

set_option maxRecDepth 10000 in
/-- C4 witness: the ranking characterization at the worked example. -/
theorem venue_recommendations_ranking_witness :
    ValidContext lisbonContext ∧
    ∃ ranked : List (ℕ × VenueRecommendation),
      ranked.Perm (venueScored lisbonContext).enum ∧
      ranked.Pairwise (fun a b => b.2.fitScore < a.2.fitScore ∨
        (a.2.fitScore = b.2.fitScore ∧ a.1 < b.1)) ∧
      (buildVenueStrategyBrief lisbonContext lisbonNow).recommendations =
        (ranked.map Prod.snd).take 3 ∧
      (buildVenueStrategyBrief lisbonContext lisbonNow).recommendations.length = 3 ∧
      ∀ r ∈ (buildVenueStrategyBrief lisbonContext lisbonNow).recommendations,
        ∃ p ∈ VENUE_PROFILES, r.venueType = p.venueType ∧
          r.fitScore = clamp (52 +
            9 * ((matchedVibes p (normalizeVibes lisbonContext.vibeWords)).length : ℚ) +
            10 * ((p.priorities.filter
              (fun q => lisbonContext.priorities.contains q)).length : ℚ) +
            capacityAdjustment p lisbonContext.guestCount) 55 98 :=
  ⟨by decide, venue_recommendations_ranking lisbonContext lisbonNow (by decide)⟩
